import Mathlib

/-!
Verification development for the wasmgl renderer core
(`src/renderer.rs`, `src/lib2.rs`, `src/lib.rs`).

The WebGL2 context is modelled as an explicit mock state (`GLCtx`);
each Rust method that takes `&WebGl2RenderingContext` becomes a Lean
function threading this state.  Machine integers are modelled as
`Nat`/`Int` with explicit twos complement casts where the Rust code
casts (`as u32`, `as i32`).  Floating point values are carried as
their 32-bit IEEE bit patterns (`Nat`); the claims under study only
concern byte layout, never float arithmetic.
-/

namespace Wasmgl

/-! ## WebGL constants (values of the `WebGl2RenderingContext` consts used) -/

def ARRAY_BUFFER : Nat := 34962
def ELEMENT_ARRAY_BUFFER : Nat := 34963
def STATIC_DRAW : Nat := 35044
def DYNAMIC_DRAW : Nat := 35048
def FLOAT : Nat := 5126

/-! ## Integer casts

Rust `as u32` / `as i32` on the values appearing in the sources. -/

/-- Rust `i as u32` for `i : i32` (twos complement reinterpretation). -/
def u32OfInt (i : Int) : Nat := (Int.emod i (2 ^ 32)).toNat

/-- Rust `n as i32` for `n : usize` (twos complement truncation). -/
def i32OfNat (n : Nat) : Int :=
  if n % 2 ^ 32 < 2 ^ 31 then ((n % 2 ^ 32 : Nat) : Int)
  else ((n % 2 ^ 32 : Nat) : Int) - 2 ^ 32

/-! ## Byte serialization

An `f32` is carried as its 32-bit pattern; `f32Bytes` is its
little-endian byte image in WebAssembly memory. -/

def f32Bytes (bits : Nat) : List Nat :=
  [bits % 256, bits / 2 ^ 8 % 256, bits / 2 ^ 16 % 256, bits / 2 ^ 24 % 256]

theorem f32Bytes_length (bits : Nat) : (f32Bytes bits).length = 4 := rfl

/-! ## The mock GL context

State touched by the operations the core calls:
buffer store, per-target buffer bindings, per-slot vertex attribute
pointers, and the enabled-attribute set. -/

/-- The record a `vertexAttribPointer` call installs for one slot. -/
structure AttribPtr where
  /-- the buffer bound to `ARRAY_BUFFER` when the pointer was set -/
  buffer : Option Nat
  size : Int
  componentType : Nat
  normalized : Bool
  stride : Int
  offset : Int
  deriving Repr, DecidableEq

structure GLCtx where
  /-- next fresh buffer handle -/
  nextBuf : Nat
  /-- byte content per allocated buffer handle -/
  contents : Nat → Option (List Nat)
  /-- buffer bound per binding target -/
  bound : Nat → Option Nat
  /-- installed vertex-attribute pointer per slot -/
  attribPtr : Nat → Option AttribPtr
  /-- enabled vertex-attribute slots -/
  enabled : Nat → Bool

def GLCtx.empty : GLCtx where
  nextBuf := 0
  contents := fun _ => none
  bound := fun _ => none
  attribPtr := fun _ => none
  enabled := fun _ => false

/-- Rust `ctx.create_buffer()` — returns a fresh handle with empty content. -/
def GLCtx.createBuffer (c : GLCtx) : Nat × GLCtx :=
  (c.nextBuf,
   { c with
      nextBuf := c.nextBuf + 1
      contents := fun h => if h = c.nextBuf then some [] else c.contents h })

/-- Rust `ctx.bind_buffer(target, Some(handle))`. -/
def GLCtx.bindBuffer (c : GLCtx) (target handle : Nat) : GLCtx :=
  { c with bound := fun t => if t = target then some handle else c.bound t }

/-- Rust `ctx.buffer_data_with_array_buffer_view(target, bytes, usage)` —
replaces the whole content of the buffer bound to `target`. -/
def GLCtx.bufferData (c : GLCtx) (target : Nat) (bytes : List Nat) (_usage : Nat) : GLCtx :=
  match c.bound target with
  | some h => { c with contents := fun b => if b = h then some bytes else c.contents b }
  | none => c

/-- Rust `ctx.vertex_attrib_pointer_with_i32(addr, size, type_, normalized, stride, offset)`. -/
def GLCtx.vertexAttribPointer (c : GLCtx) (addr : Nat) (size : Int) (componentType : Nat)
    (normalized : Bool) (stride offset : Int) : GLCtx :=
  { c with
      attribPtr := fun a =>
        if a = addr then
          some { buffer := c.bound ARRAY_BUFFER, size := size, componentType := componentType
                 normalized := normalized, stride := stride, offset := offset }
        else c.attribPtr a }

/-- Rust `ctx.enable_vertex_attrib_array(addr)`. -/
def GLCtx.enableVertexAttribArray (c : GLCtx) (addr : Nat) : GLCtx :=
  { c with enabled := fun a => if a = addr then true else c.enabled a }

/-! ## Shader program wrapper (`src/renderer.rs`, `Shader`)

Compilation and linking (`compile_shader` / `link_program`) talk to the
GL backend; their successful outcome is modelled by a `ProgramInfo`
describing which attribute and uniform names are active in the linked
program.  `Shader::new` aborts via `or_throw` on compile/link failure,
so the claims about binding resolution are stated from the linked
program onwards. -/

/-- The observable interface of a successfully linked `WebGlProgram`:
the active attribute names (in location order) and the active uniform
names (uniform locations are modelled by the index). -/
structure ProgramInfo where
  attrs : List String
  uniforms : List String
  deriving Repr, DecidableEq

/-- Rust `context.get_attrib_location(&program, name)`: the attribute
location, or `-1` when the program has no active attribute of that
name (WebGL returns `-1` rather than failing). -/
def getAttribLocation (p : ProgramInfo) (name : String) : Int :=
  match p.attrs.findIdx? (fun a => a == name) with
  | some i => (i : Int)
  | none => -1

/-- Rust `context.get_uniform_location(&program, name)`: `Some(location)`
for an active uniform, `None` otherwise. -/
def getUniformLocation (p : ProgramInfo) (name : String) : Option Nat :=
  p.uniforms.findIdx? (fun u => u == name)

/-- Rust `struct Shader` — the two `HashMap`s are modelled as association
lists built in declaration order. -/
structure Shader where
  program : ProgramInfo
  attribute_locations : List (String × Nat)
  uniform_locations : List (String × Nat)
  deriving Repr, DecidableEq

/-- Rust `Shader::new` after a successful compile and link: populates the
attribute map with `get_attrib_location(..) as u32` for every declared
attribute name and the uniform map with
`get_uniform_location(..).unwrap()` for every declared uniform name.
`none` models the `unwrap` panic raised when some declared uniform has
no location. -/
def Shader.new (program : ProgramInfo) (uniforms attributes : List String) :
    Option Shader :=
  if uniforms.all (fun u => (getUniformLocation program u).isSome) then
    some
      { program := program
        attribute_locations :=
          attributes.map (fun attr => (attr, u32OfInt (getAttribLocation program attr)))
        uniform_locations :=
          uniforms.filterMap (fun attr =>
            (getUniformLocation program attr).map (fun loc => (attr, loc))) }
  else
    none

/-- Rust `Shader::find_attr` — `self.attribute_locations[name]`; `none`
models the `HashMap` index panic on an unregistered name. -/
def Shader.find_attr (s : Shader) (name : String) : Option Nat :=
  s.attribute_locations.lookup name

/-- Rust `Shader::find_uniform` — `self.uniform_locations[name]`. -/
def Shader.find_uniform (s : Shader) (name : String) : Option Nat :=
  s.uniform_locations.lookup name

/-- A lookup request against a `Shader`. -/
inductive LookupReq where
  | attr (name : String)
  | uniform (name : String)
  deriving Repr, DecidableEq

/-- Run a sequence of `find_attr`/`find_uniform` calls, threading the
shader value through so that any mutation performed by a lookup would
be visible in the final shader.  Both methods take `&self` and the
struct has no interior mutability, so the translation returns the
receiver unchanged. -/
def Shader.runLookups (s : Shader) : List LookupReq → Shader × List (Option Nat)
  | [] => (s, [])
  | .attr name :: rest =>
      ((s.runLookups rest).1, s.find_attr name :: (s.runLookups rest).2)
  | .uniform name :: rest =>
      ((s.runLookups rest).1, s.find_uniform name :: (s.runLookups rest).2)

/-! ## Typed GPU buffer (`src/renderer.rs`, `VBO<T>`)

The Rust element type `T` is abstracted by a `RecordLayout`: its
in-memory size (`std::mem::size_of::<T>()`) and the byte image each
value occupies in WebAssembly memory (what
`self.buffer.as_slice().align_to::<u8>().1` exposes). -/

/-- The memory layout of a record type `α`: byte size and byte image,
with the length of the image fixed by the size. -/
structure RecordLayout (α : Type) where
  size : Nat
  toBytes : α → List Nat
  length_toBytes : ∀ a, (toBytes a).length = size

/-- The packed byte image of a host-side record sequence — the view
`as_slice().align_to::<u8>().1` that the upload passes to the GPU. -/
def packBytes (L : RecordLayout α) (data : List α) : List Nat :=
  (data.map L.toBytes).flatten

theorem packBytes_length (L : RecordLayout α) (data : List α) :
    (packBytes L data).length = data.length * L.size := by
  induction data with
  | nil => simp [packBytes]
  | cons a t ih =>
      simp [packBytes, List.flatten] at ih ⊢
      simp [L.length_toBytes, ih, Nat.succ_mul, Nat.add_comm]

/-- Rust `struct VBO<T>` of `src/renderer.rs`. -/
structure VBO (α : Type) where
  buffer : List α
  handle : Nat
  buffer_type : Nat
  access_type : Nat

/-- Rust `VBO::update` (`&self`): binds the buffer and re-uploads the whole
raw bytes of the host sequence, replacing the prior GPU contents. -/
def VBO.update (L : RecordLayout α) (v : VBO α) (ctx : GLCtx) : GLCtx :=
  let ctx := ctx.bindBuffer v.buffer_type v.handle
  ctx.bufferData v.buffer_type (packBytes L v.buffer) v.access_type

/-- Rust `VBO::new`: creates a GL buffer, wraps the initial data
(`data.unwrap_or_default()`), and immediately calls `update`. -/
def VBO.new (L : RecordLayout α) (ctx : GLCtx) (data : Option (List α))
    (buffer_type access_type : Nat) : VBO α × GLCtx :=
  let (h, ctx) := ctx.createBuffer
  let result : VBO α :=
    { buffer := data.getD [], handle := h
      buffer_type := buffer_type, access_type := access_type }
  (result, result.update L ctx)

/-- Rust `VBO::bind`: binds the buffer, installs the vertex-attribute
pointer for `addr` with stride `size_of::<T>() as i32` and offset
`offset as i32`, and enables the attribute slot.  No bounds check is
performed on the declared component layout. -/
def VBO.bind (L : RecordLayout α) (v : VBO α) (ctx : GLCtx) (addr : Nat) (size : Int)
    (componentType : Nat) (normalized : Bool) (offset : Nat) : GLCtx :=
  let ctx := ctx.bindBuffer v.buffer_type v.handle
  let ctx := ctx.vertexAttribPointer addr size componentType normalized
    (i32OfNat L.size) (i32OfNat offset)
  ctx.enableVertexAttribArray addr

/-- Rust `VBO::len`. -/
def VBO.len (v : VBO α) : Nat := v.buffer.length

/-! ## The `lib2.rs` variant (`VBO<T>` with the `IVBO` impl) -/

/-- Rust `struct VBO<T>` of `src/lib2.rs` (field names `source`/`buffer`). -/
structure VBO2 (α : Type) where
  source : List α
  buffer : Nat

/-- Rust `lib2.rs` `VBO::new`: creates a GL buffer and stores the initial
data; it performs no upload. -/
def VBO2.new (ctx : GLCtx) (default_content : Option (List α)) : VBO2 α × GLCtx :=
  let (h, ctx) := ctx.createBuffer
  ({ buffer := h, source := default_content.getD [] }, ctx)

/-- Rust `lib2.rs` `<VBO<T> as IVBO>::update` (`&mut self`): binds the
buffer to `ARRAY_BUFFER` and uploads the raw
bytes with `STATIC_DRAW`.  The translation returns the receiver so a
mutation of `self` would be visible; the body performs none. -/
def VBO2.update (L : RecordLayout α) (v : VBO2 α) (ctx : GLCtx) : VBO2 α × GLCtx :=
  let ctx := ctx.bindBuffer ARRAY_BUFFER v.buffer
  (v, ctx.bufferData ARRAY_BUFFER (packBytes L v.source) STATIC_DRAW)

/-- Rust `lib2.rs` `VBO::bind`: same shape as the `renderer.rs` one with
the target fixed to `ARRAY_BUFFER`. -/
def VBO2.bind (L : RecordLayout α) (v : VBO2 α) (ctx : GLCtx) (addr : Nat) (size : Int)
    (componentType : Nat) (normalized : Bool) (offset : Nat) : GLCtx :=
  let ctx := ctx.bindBuffer ARRAY_BUFFER v.buffer
  let ctx := ctx.vertexAttribPointer addr size componentType normalized
    (i32OfNat L.size) (i32OfNat offset)
  ctx.enableVertexAttribArray addr

/-! ## The concrete record type (`src/lib2.rs`: `Position`, `Color`, `Vertex`)

All fields are `f32`, carried as 32-bit patterns.  rustc lays these
structs out with `pos` at offset 0 and `color` right after it, with no
padding (every field has size and alignment 4); `offset_of!` reads the
actual offsets of that layout. -/

structure Position where
  x : Nat
  y : Nat
  z : Nat
  deriving Repr, DecidableEq

structure Color where
  r : Nat
  g : Nat
  b : Nat
  deriving Repr, DecidableEq

structure Vertex where
  pos : Position
  color : Color
  deriving Repr, DecidableEq

def Position.toBytes (p : Position) : List Nat :=
  f32Bytes p.x ++ f32Bytes p.y ++ f32Bytes p.z

def Color.toBytes (c : Color) : List Nat :=
  f32Bytes c.r ++ f32Bytes c.g ++ f32Bytes c.b

def Vertex.toBytes (v : Vertex) : List Nat :=
  v.pos.toBytes ++ v.color.toBytes

/-- Rust `size_of::<Position>()`. -/
def Position.sizeOf : Nat := 12

/-- Rust `size_of::<Color>()`. -/
def Color.sizeOf : Nat := 12

/-- Rust `size_of::<Vertex>()`. -/
def Vertex.sizeOf : Nat := 24

/-- Rust `offset_of!(Vertex, pos)`. -/
def Vertex.offsetOfPos : Nat := 0

/-- Rust `offset_of!(Vertex, color)`. -/
def Vertex.offsetOfColor : Nat := 12

def Vertex.layout : RecordLayout Vertex where
  size := Vertex.sizeOf
  toBytes := Vertex.toBytes
  length_toBytes := by
    intro a
    simp [Vertex.toBytes, Position.toBytes, Color.toBytes, f32Bytes,
      Vertex.sizeOf]

/-! ## Frame scheduler (`src/renderer.rs`, `render_loop`)

The host (browser) side is modelled by two counters: how many
`requestAnimationFrame` one-shot requests are outstanding and how many
`resize` listeners are registered.  The callback is observed through
the trace of boolean arguments it has been invoked with, in order.
After the synchronous part of `render_loop` returns, the host delivers
events one at a time on the single UI thread (`deliver`). -/

/-- Scheduler-visible state: callback invocation trace plus the host
registration counters. -/
structure SchedulerState where
  /-- arguments of all `callback(_)` invocations so far, oldest first -/
  trace : List Bool
  /-- outstanding one-shot `requestAnimationFrame` requests -/
  rafPending : Nat
  /-- registered `resize` event listeners -/
  resizeListeners : Nat
  deriving Repr, DecidableEq

/-- Rust `callback(b)`. -/
def invokeCallback (b : Bool) (s : SchedulerState) : SchedulerState :=
  { s with trace := s.trace ++ [b] }

/-- Rust `request_animation_frame(..)` — registers one one-shot request. -/
def rafRequest (s : SchedulerState) : SchedulerState :=
  { s with rafPending := s.rafPending + 1 }

/-- Rust `window().add_event_listener_with_callback("resize", ..)`. -/
def addResizeListener (s : SchedulerState) : SchedulerState :=
  { s with resizeListeners := s.resizeListeners + 1 }

/-- The synchronous body of `render_loop` (`src/renderer.rs`):
`callback(true)` first, then the initial `request_animation_frame`
for the self-re-requesting animation closure, then registration of
the resize listener; then it returns `Ok(())` to the host. -/
def render_loop (s : SchedulerState) : SchedulerState :=
  addResizeListener (rafRequest (invokeCallback true s))

/-- The fresh host state `render_loop` starts from. -/
def SchedulerState.init : SchedulerState :=
  { trace := [], rafPending := 0, resizeListeners := 0 }

/-- An event the host event loop can deliver. -/
inductive HostEvent where
  | animationFrame
  | resize
  deriving Repr, DecidableEq

/-- Host delivery of one event.
An animation frame consumes one outstanding request and runs the
closure `ref1.borrow_mut()(false); request_animation_frame(..)`; with
no request outstanding the host has nothing to fire.  A resize event
runs the listener closure `ref2.borrow_mut()(true)` once per
registered listener occurrence (the loop registers exactly one). -/
def deliver (s : SchedulerState) : HostEvent → SchedulerState
  | .animationFrame =>
      if s.rafPending > 0 then
        rafRequest (invokeCallback false { s with rafPending := s.rafPending - 1 })
      else s
  | .resize =>
      if s.resizeListeners > 0 then invokeCallback true s else s

/-- Deliver a sequence of host events in order. -/
def deliverAll (s : SchedulerState) : List HostEvent → SchedulerState
  | [] => s
  | e :: rest => deliverAll (deliver s e) rest

/-- The callback argument an event produces while the loop is live. -/
def evArg : HostEvent → Bool
  | .animationFrame => false
  | .resize => true

/-! ## Helper lemmas -/

theorem i32OfNat_of_lt (n : Nat) (h : n < 2 ^ 31) : i32OfNat n = (n : Int) := by
  simp only [i32OfNat]
  split <;> omega

theorem u32OfInt_neg_one : u32OfInt (-1) = 2 ^ 32 - 1 := by decide

/-- While exactly one animation-frame request is outstanding and one
resize listener is registered, event delivery keeps both counters at
one and appends to the trace the argument each event produces. -/
theorem deliverAll_steady (evs : List HostEvent) :
    ∀ s : SchedulerState, s.rafPending = 1 → s.resizeListeners = 1 →
      deliverAll s evs =
        { trace := s.trace ++ evs.map evArg, rafPending := 1, resizeListeners := 1 } := by
  induction evs with
  | nil =>
      intro s h1 h2
      cases s
      simp_all [deliverAll]
  | cons e rest ih =>
      intro s h1 h2
      cases e with
      | animationFrame =>
          have hstep : deliver s .animationFrame =
              { trace := s.trace ++ [false], rafPending := 1,
                resizeListeners := s.resizeListeners } := by
            simp [deliver, h1, rafRequest, invokeCallback]
          rw [deliverAll, hstep, ih _ rfl (by simpa using h2)]
          simp [evArg]
      | resize =>
          have hstep : deliver s .resize =
              { trace := s.trace ++ [true], rafPending := s.rafPending,
                resizeListeners := s.resizeListeners } := by
            simp [deliver, h2, invokeCallback]
          rw [deliverAll, hstep, ih _ (by simpa using h1) (by simpa using h2)]
          simp [evArg]

theorem count_map_evArg (evs : List HostEvent) :
    (evs.map evArg).count true = evs.count HostEvent.resize ∧
    (evs.map evArg).count false = evs.count HostEvent.animationFrame := by
  induction evs with
  | nil => simp
  | cons e t ih =>
      cases e <;>
        simp [evArg, List.count_cons, ih.1, ih.2]

/-! ## Claims about the frame scheduler -/

/-- Claim C2: `render_loop(cb)` invokes `cb(true)` exactly once,
synchronously, before returning control to the host: starting from the
fresh host state, its synchronous part ends with trace `[true]`, one
pending animation-frame request and one resize listener; the
registration calls themselves never invoke the callback; and for every
subsequent host event sequence the very first callback invocation in
the whole history stays that initial `cb(true)`, so it happens before
any animation-frame invocation of `cb`. -/
theorem render_loop_initial_callback :
    render_loop SchedulerState.init =
      { trace := [true], rafPending := 1, resizeListeners := 1 } ∧
    (∀ s : SchedulerState,
      (rafRequest s).trace = s.trace ∧ (addResizeListener s).trace = s.trace) ∧
    (∀ evs : List HostEvent,
      (deliverAll (render_loop SchedulerState.init) evs).trace = true :: evs.map evArg) := by
  refine ⟨rfl, fun s => ⟨rfl, rfl⟩, fun evs => ?_⟩
  rw [deliverAll_steady evs (render_loop SchedulerState.init) rfl rfl]
  rfl

/-- Claim C7: each firing of the host resize event invokes `cb(true)`
exactly once (the listener state allowing, the delivered trace grows
by exactly `[true]` and the animation-frame request count is
untouched); in particular a resize between two animation frames yields
the trace `[true, false, true, false]`, and over any event sequence
the number of `cb(false)` invocations equals the number of animation
frames delivered while `cb(true)` is invoked once per resize plus the
single initial pass — no animation frame is dropped or duplicated. -/
theorem resize_extra_callback :
    (deliverAll (render_loop SchedulerState.init)
        [HostEvent.animationFrame, HostEvent.resize, HostEvent.animationFrame]).trace =
      [true, false, true, false] ∧
    (∀ evs : List HostEvent,
      ((deliverAll (render_loop SchedulerState.init) evs).trace.count true =
        1 + evs.count HostEvent.resize) ∧
      ((deliverAll (render_loop SchedulerState.init) evs).trace.count false =
        evs.count HostEvent.animationFrame) ∧
      (deliverAll (render_loop SchedulerState.init) evs).rafPending = 1) := by
  constructor
  · rfl
  · intro evs
    rw [deliverAll_steady evs (render_loop SchedulerState.init) rfl rfl]
    refine ⟨?_, ?_, rfl⟩
    · simp [render_loop, SchedulerState.init, invokeCallback, rafRequest,
        addResizeListener, List.count_cons, (count_map_evArg evs).1, Nat.add_comm]
    · simp [render_loop, SchedulerState.init, invokeCallback, rafRequest,
        addResizeListener, List.count_cons, (count_map_evArg evs).2]

/-- Claim C8: each host animation-frame delivery invokes `cb(false)`
and immediately re-requests the next frame: after `n` deliveries the
callback history is the initial `true` followed by exactly `n`
`false`s, and exactly one animation-frame request is pending. -/
theorem animation_frame_self_sustaining :
    ∀ n : Nat,
      deliverAll (render_loop SchedulerState.init)
          (List.replicate n HostEvent.animationFrame) =
        { trace := true :: List.replicate n false, rafPending := 1,
          resizeListeners := 1 } := by
  intro n
  rw [deliverAll_steady _ (render_loop SchedulerState.init) rfl rfl]
  simp [render_loop, SchedulerState.init, invokeCallback, rafRequest,
    addResizeListener, evArg]

/-! ## Helper lemmas about the GL context and buffers -/

theorem GLCtx.bufferData_of_bound (c : GLCtx) (target : Nat) (bytes : List Nat)
    (usage h : Nat) (hb : c.bound target = some h) :
    c.bufferData target bytes usage =
      { c with contents := fun b => if b = h then some bytes else c.contents b } := by
  unfold GLCtx.bufferData
  rw [hb]

theorem GLCtx.bound_bindBuffer_self (c : GLCtx) (target handle : Nat) :
    (c.bindBuffer target handle).bound target = some handle := by
  simp [GLCtx.bindBuffer]

/-- Normal form of a bind-then-upload pair of GL calls. -/
theorem upload_eq (t h u : Nat) (bytes : List Nat) (c : GLCtx) :
    (c.bindBuffer t h).bufferData t bytes u =
      { nextBuf := c.nextBuf
        contents := fun b => if b = h then some bytes else c.contents b
        bound := fun tt => if tt = t then some h else c.bound tt
        attribPtr := c.attribPtr
        enabled := c.enabled } := by
  rw [GLCtx.bufferData_of_bound _ _ _ _ h (GLCtx.bound_bindBuffer_self _ _ _)]
  rfl

/-- Binding a buffer and replacing its whole content is idempotent on
the GL state. -/
theorem upload_idem (t h u : Nat) (bytes : List Nat) (c : GLCtx) :
    ((((c.bindBuffer t h).bufferData t bytes u).bindBuffer t h).bufferData t bytes u) =
      (c.bindBuffer t h).bufferData t bytes u := by
  rw [upload_eq t h u bytes c, upload_eq]
  dsimp only
  simp only [GLCtx.mk.injEq]
  refine ⟨trivial, ?_, ?_, trivial, trivial⟩
  · funext b
    by_cases hb : b = h <;> simp [hb]
  · funext tt
    by_cases ht : tt = t <;> simp [ht]

/-- After `VBO::bind`, the attribute slot holds exactly the declared
pointer (stride `size_of::<T>() as i32`, offset `offset as i32`) and
is enabled. -/
theorem VBO_bind_attribPtr (L : RecordLayout α) (v : VBO α) (ctx : GLCtx) (addr : Nat)
    (size : Int) (ct : Nat) (norm : Bool) (offset : Nat) :
    ((VBO.bind L v ctx addr size ct norm offset).attribPtr addr =
      some { buffer := (ctx.bindBuffer v.buffer_type v.handle).bound ARRAY_BUFFER
             size := size, componentType := ct, normalized := norm
             stride := i32OfNat L.size, offset := i32OfNat offset }) ∧
    (VBO.bind L v ctx addr size ct norm offset).enabled addr = true := by
  unfold VBO.bind GLCtx.vertexAttribPointer GLCtx.enableVertexAttribArray
  constructor <;> simp

/-- Byte width of one component of a GL component type: `FLOAT`
components are 4 bytes (the sources only ever bind `FLOAT` fields). -/
def componentByteWidth (t : Nat) : Nat := if t = FLOAT then 4 else 1

/-! ## Claims about the typed buffer -/

/-- Claim C5: `VBO::new` allocates a fresh GPU buffer and performs an
initial synchronization: immediately after construction the GPU store
maps the new handle to the packed bytes of the host-side sequence
(`data.unwrap_or_default()`). -/
theorem VBO_new_initial_sync :
    ∀ (α : Type) (L : RecordLayout α) (ctx : GLCtx) (data : Option (List α))
      (buffer_type access_type : Nat),
      ((VBO.new L ctx data buffer_type access_type).1.handle = ctx.nextBuf) ∧
      ((VBO.new L ctx data buffer_type access_type).2.nextBuf = ctx.nextBuf + 1) ∧
      ((VBO.new L ctx data buffer_type access_type).1.buffer = data.getD []) ∧
      ((VBO.new L ctx data buffer_type access_type).2.contents
          (VBO.new L ctx data buffer_type access_type).1.handle =
        some (packBytes L (data.getD []))) := by
  intro α L ctx data bt at2
  have hupd : ∀ (v : VBO α) (c : GLCtx), v.update L c =
      { nextBuf := c.nextBuf
        contents := fun b => if b = v.handle then some (packBytes L v.buffer)
                             else c.contents b
        bound := fun tt => if tt = v.buffer_type then some v.handle else c.bound tt
        attribPtr := c.attribPtr
        enabled := c.enabled } := by
    intro v c
    unfold VBO.update
    exact upload_eq _ _ _ _ _
  refine ⟨rfl, ?_, rfl, ?_⟩
  · show (VBO.update L _ _).nextBuf = ctx.nextBuf + 1
    rw [hupd]
  · show (VBO.update L _ _).contents ctx.nextBuf = some (packBytes L (data.getD []))
    rw [hupd]
    simp

/-- Claim C6: synchronization is idempotent — re-running `update` with
no intervening mutation leaves the GL state (in particular the GPU
buffer contents) exactly as a single call does, because each call
re-uploads the whole host sequence, replacing prior contents.  Stated
for both the `renderer.rs` `VBO::update` and the `lib2.rs`
`IVBO::update` implementation. -/
theorem VBO_update_idempotent :
    ∀ (α : Type) (L : RecordLayout α) (v : VBO α) (w : VBO2 α) (ctx ctx2 : GLCtx),
      (v.update L (v.update L ctx) = v.update L ctx) ∧
      (VBO2.update L w (VBO2.update L w ctx2).2 = VBO2.update L w ctx2) := by
  intro α L v w ctx ctx2
  constructor
  · unfold VBO.update
    exact upload_idem _ _ _ _ _
  · unfold VBO2.update
    exact congrArg (Prod.mk w)
      (upload_idem ARRAY_BUFFER w.buffer STATIC_DRAW (packBytes L w.source) ctx2)

/-- Claim C10: synchronization leaves the host-side record sequence
untouched: the `lib2.rs` `IVBO::update` (which takes `&mut self`)
returns its receiver with the same `source` vector — same length, same
elements — and the `renderer.rs` `VBO::update` takes `&self` and is
translated without even the possibility of mutating the receiver. -/
theorem VBO_update_preserves_source :
    ∀ (α : Type) (L : RecordLayout α) (w : VBO2 α) (ctx : GLCtx),
      ((VBO2.update L w ctx).1 = w) ∧
      ((VBO2.update L w ctx).1.source = w.source) ∧
      ((VBO2.update L w ctx).1.source.length = w.source.length) := by
  intro α L w ctx
  exact ⟨rfl, rfl, rfl⟩

/-- Claim C3: `bind_field` installs the GPU vertex-attribute pointer
for the slot with exactly the given component count, component type
and normalized flag, with stride `size_of::<Record>()` and the given
byte offset, and enables the slot; and the offset the `VBO_bind!`
macro supplies via `offset_of!` is the actual offset of the field in the
memory layout of the record: the bytes of each `Vertex` field occupy
exactly the byte range starting at that offset in the packed
image. -/
theorem bind_field_spec :
    (∀ (α : Type) (L : RecordLayout α) (v : VBO α) (ctx : GLCtx) (addr : Nat)
        (size : Int) (ct : Nat) (norm : Bool) (offset : Nat),
        L.size < 2 ^ 31 → offset < 2 ^ 31 →
        ((((VBO.bind L v ctx addr size ct norm offset).attribPtr addr).map
            (fun p => (p.size, p.componentType, p.normalized, p.stride, p.offset)) =
          some (size, ct, norm, (L.size : Int), (offset : Int))) ∧
        (VBO.bind L v ctx addr size ct norm offset).enabled addr = true)) ∧
    (∀ v : Vertex,
      (((Vertex.layout.toBytes v).drop Vertex.offsetOfPos).take Position.sizeOf =
        v.pos.toBytes) ∧
      (((Vertex.layout.toBytes v).drop Vertex.offsetOfColor).take Color.sizeOf =
        v.color.toBytes) ∧
      (Vertex.layout.size = Vertex.sizeOf)) := by
  constructor
  · intro α L v ctx addr size ct norm offset hL hoff
    have h := VBO_bind_attribPtr L v ctx addr size ct norm offset
    refine ⟨?_, h.2⟩
    rw [h.1]
    simp [i32OfNat_of_lt _ hL, i32OfNat_of_lt _ hoff]
  · intro v
    have hp : v.pos.toBytes.length = Position.sizeOf := by
      simp [Position.toBytes, f32Bytes, Position.sizeOf]
    have hc : v.color.toBytes.length = Color.sizeOf := by
      simp [Color.toBytes, f32Bytes, Color.sizeOf]
    refine ⟨?_, ?_, rfl⟩
    · show ((v.pos.toBytes ++ v.color.toBytes).drop 0).take Position.sizeOf = v.pos.toBytes
      rw [List.drop_zero, ← hp, List.take_left]
    · show ((v.pos.toBytes ++ v.color.toBytes).drop Vertex.offsetOfColor).take Color.sizeOf =
        v.color.toBytes
      have ho : Vertex.offsetOfColor = v.pos.toBytes.length := by
        rw [hp]
        rfl
      rw [ho, List.drop_left, ← hc, List.take_length]

/-- Witness for C3: binding the `color` field of `Vertex` (3 `FLOAT`
components at byte offset 12) on a concrete buffer installs pointer
`(3, FLOAT, false, stride 24, offset 12)` and enables slot 0. -/
theorem bind_field_spec_witness :
    (Vertex.layout.size < 2 ^ 31 ∧ (12 : Nat) < 2 ^ 31) ∧
    (((VBO.bind Vertex.layout ⟨[], 0, ARRAY_BUFFER, STATIC_DRAW⟩ GLCtx.empty 0 3 FLOAT
          false 12).attribPtr 0).map
        (fun p => (p.size, p.componentType, p.normalized, p.stride, p.offset)) =
      some (3, FLOAT, false, (Vertex.layout.size : Int), (12 : Int))) ∧
    ((VBO.bind Vertex.layout ⟨[], 0, ARRAY_BUFFER, STATIC_DRAW⟩ GLCtx.empty 0 3 FLOAT
        false 12).enabled 0 = true) := by
  have h := bind_field_spec.1 Vertex Vertex.layout ⟨[], 0, ARRAY_BUFFER, STATIC_DRAW⟩
    GLCtx.empty 0 3 FLOAT false 12 (by decide) (by decide)
  exact ⟨⟨by decide, by decide⟩, h.1, h.2⟩

/-- Claim C4 counterexample: with `Record = Vertex` (24 bytes),
binding 3 `FLOAT` components (12 bytes) at byte offset 20 overruns the
record (needs bytes up to offset 32), yet `VBO::bind` does not fail
fast: it installs the pointer with exactly those parameters and
enables the slot. -/
theorem bind_no_bounds_check_cex :
    (20 + 3 * componentByteWidth FLOAT > Vertex.layout.size) ∧
    ((VBO.bind Vertex.layout ⟨[], 0, ARRAY_BUFFER, STATIC_DRAW⟩ GLCtx.empty 0 3 FLOAT
        false 20).attribPtr 0 =
      some { buffer := some 0, size := 3, componentType := FLOAT, normalized := false,
             stride := 24, offset := 20 }) ∧
    ((VBO.bind Vertex.layout ⟨[], 0, ARRAY_BUFFER, STATIC_DRAW⟩ GLCtx.empty 0 3 FLOAT
        false 20).enabled 0 = true) := by
  refine ⟨by decide, ?_, ?_⟩
  · have h := (VBO_bind_attribPtr Vertex.layout ⟨[], 0, ARRAY_BUFFER, STATIC_DRAW⟩
      GLCtx.empty 0 3 FLOAT false 20).1
    rw [h]
    decide
  · exact (VBO_bind_attribPtr Vertex.layout ⟨[], 0, ARRAY_BUFFER, STATIC_DRAW⟩
      GLCtx.empty 0 3 FLOAT false 20).2

/-- Claim C4 (amended): `VBO::bind` performs no bounds check at all —
even when the declared component layout (`component_count` components
of `component_type` starting at `byte_offset`) does not fit within
`size_of(Record)`, the binding is installed with exactly the given
parameters and the slot is enabled; nothing fails fast. -/
theorem bind_installs_without_bounds_check :
    ∀ (α : Type) (L : RecordLayout α) (v : VBO α) (ctx : GLCtx) (addr : Nat)
      (size : Int) (ct : Nat) (norm : Bool) (offset : Nat),
      offset + size.toNat * componentByteWidth ct > L.size →
      ((((VBO.bind L v ctx addr size ct norm offset).attribPtr addr).map
          (fun p => (p.size, p.componentType, p.normalized, p.stride, p.offset)) =
        some (size, ct, norm, i32OfNat L.size, i32OfNat offset)) ∧
      (VBO.bind L v ctx addr size ct norm offset).enabled addr = true) := by
  intro α L v ctx addr size ct norm offset _hmisfit
  have h := VBO_bind_attribPtr L v ctx addr size ct norm offset
  refine ⟨?_, h.2⟩
  rw [h.1]
  rfl

/-- Witness for the amended C4: the concrete overrunning binding from
the counterexample is indeed installed. -/
theorem bind_installs_without_bounds_check_witness :
    (20 + (3 : Int).toNat * componentByteWidth FLOAT > Vertex.layout.size) ∧
    (((VBO.bind Vertex.layout ⟨[], 0, ARRAY_BUFFER, STATIC_DRAW⟩ GLCtx.empty 0 3 FLOAT
          false 20).attribPtr 0).map
        (fun p => (p.size, p.componentType, p.normalized, p.stride, p.offset)) =
      some (3, FLOAT, false, i32OfNat Vertex.layout.size, i32OfNat 20)) ∧
    ((VBO.bind Vertex.layout ⟨[], 0, ARRAY_BUFFER, STATIC_DRAW⟩ GLCtx.empty 0 3 FLOAT
        false 20).enabled 0 = true) := by
  have h := bind_installs_without_bounds_check Vertex Vertex.layout
    ⟨[], 0, ARRAY_BUFFER, STATIC_DRAW⟩ GLCtx.empty 0 3 FLOAT false 20 (by decide)
  exact ⟨by decide, h.1, h.2⟩

/-! ## Helper lemmas about shader name lookup -/

theorem lookup_map_self {β : Type} (f : String → β) (l : List String) (a : String)
    (h : a ∈ l) :
    (l.map (fun x => (x, f x))).lookup a = some (f a) := by
  induction l with
  | nil => cases h
  | cons x t ih =>
      rcases List.mem_cons.mp h with rfl | hmem
      · simp [List.lookup]
      · by_cases hx : a = x
        · subst hx
          simp [List.lookup]
        · simpa [List.lookup, beq_eq_false_iff_ne.mpr hx] using ih hmem

theorem lookup_filterMap_locations (g : String → Option Nat) (l : List String) (a : String)
    (hall : ∀ u ∈ l, (g u).isSome = true) (h : a ∈ l) :
    (l.filterMap (fun u => (g u).map (fun loc => (u, loc)))).lookup a = g a := by
  induction l with
  | nil => cases h
  | cons x t ih =>
      obtain ⟨vx, hvx⟩ := Option.isSome_iff_exists.mp (hall x (List.mem_cons_self x t))
      rcases List.mem_cons.mp h with rfl | hmem
      · simp [List.filterMap_cons, hvx, List.lookup]
      · by_cases hax : a = x
        · subst hax
          simp [List.filterMap_cons, hvx, List.lookup]
        · simpa [List.filterMap_cons, hvx, List.lookup, beq_eq_false_iff_ne.mpr hax] using
            ih (fun u hu => hall u (List.mem_cons_of_mem _ hu)) hmem

theorem runLookups_fst (s : Shader) (reqs : List LookupReq) :
    (s.runLookups reqs).1 = s := by
  induction reqs with
  | nil => rfl
  | cons r t ih => cases r <;> simp [Shader.runLookups, ih]

theorem runLookups_replicate_attr (s : Shader) (name : String) (n : Nat) :
    (s.runLookups (List.replicate n (LookupReq.attr name))).2 =
      List.replicate n (s.find_attr name) := by
  induction n with
  | zero => rfl
  | succ k ih => simp [List.replicate_succ, Shader.runLookups, ih]

theorem runLookups_replicate_uniform (s : Shader) (name : String) (n : Nat) :
    (s.runLookups (List.replicate n (LookupReq.uniform name))).2 =
      List.replicate n (s.find_uniform name) := by
  induction n with
  | zero => rfl
  | succ k ih => simp [List.replicate_succ, Shader.runLookups, ih]

/-! ## Claims about the shader wrapper -/

/-- Claim C1 counterexample: constructing a `Shader` over a linked
program with no active bindings at all, declaring the attribute name
"missing", does not fail with any `UnknownBinding` error — there is no
such error in the code — it succeeds and silently maps the name to the
invalid handle `4294967295` (`-1 as u32`). -/
theorem shader_new_unknown_attr_cex :
    Shader.new ⟨[], []⟩ [] [("missing" : String)] =
      some ⟨⟨[], []⟩, [(("missing" : String), 4294967295)], []⟩ := by
  decide

/-- Claim C1 (amended): `Shader::new` never returns a structured
`Error::UnknownBinding`.  A declared uniform name with no matching
declaration makes construction abort through the `unwrap` panic on
the `None` returned by `get_uniform_location` (no program value is returned), while
a declared attribute name with no matching declaration does not make
construction fail at all: `get_attrib_location` returns `-1` and the
`as u32` cast silently registers the invalid handle `2^32 - 1`. -/
theorem shader_new_unknown_binding :
    (∀ (program : ProgramInfo) (uniforms attributes : List String) (u : String),
        u ∈ uniforms → getUniformLocation program u = none →
        Shader.new program uniforms attributes = none) ∧
    (∀ (program : ProgramInfo) (uniforms attributes : List String) (a : String),
        (∀ u ∈ uniforms, (getUniformLocation program u).isSome = true) →
        a ∈ attributes → getAttribLocation program a = -1 →
        ((Shader.new program uniforms attributes).isSome = true ∧
        (Shader.new program uniforms attributes).bind (fun s => s.find_attr a) =
          some (2 ^ 32 - 1))) := by
  constructor
  · intro program uniforms attributes u hu hnone
    have hcond : ¬(uniforms.all (fun v => (getUniformLocation program v).isSome) = true) := by
      intro hall
      have := List.all_eq_true.mp hall u hu
      rw [hnone] at this
      simp at this
    unfold Shader.new
    rw [if_neg hcond]
  · intro program uniforms attributes a hall ha hloc
    have hcond : uniforms.all (fun v => (getUniformLocation program v).isSome) = true :=
      List.all_eq_true.mpr hall
    unfold Shader.new
    rw [if_pos hcond]
    refine ⟨rfl, ?_⟩
    show Shader.find_attr _ a = _
    unfold Shader.find_attr
    show (attributes.map (fun attr => (attr, u32OfInt (getAttribLocation program attr)))).lookup a = _
    rw [lookup_map_self _ _ _ ha, hloc, u32OfInt_neg_one]

/-- Witness for the amended C1: a missing uniform name panics
construction; a missing attribute name still constructs, mapped to
`2^32 - 1`. -/
theorem shader_new_unknown_binding_witness :
    (Shader.new ⟨[], [("projection" : String)]⟩ [("missing" : String)] [] = none) ∧
    ((Shader.new ⟨[], [("projection" : String)]⟩ [("projection" : String)]
        [("ghost" : String)]).isSome = true) ∧
    ((Shader.new ⟨[], [("projection" : String)]⟩ [("projection" : String)]
        [("ghost" : String)]).bind (fun s => s.find_attr ("ghost")) =
      some (2 ^ 32 - 1)) := by
  have h1 := shader_new_unknown_binding.1 ⟨[], [("projection" : String)]⟩
    [("missing" : String)] [] ("missing") (by decide) (by decide)
  have h2 := shader_new_unknown_binding.2 ⟨[], [("projection" : String)]⟩
    [("projection" : String)] [("ghost" : String)] ("ghost") (by decide) (by decide)
    (by decide)
  exact ⟨h1, h2.1, h2.2⟩

/-- Claim C9: for a successfully constructed `Shader`, the attribute
and uniform maps are exactly the ones computed at construction from
the caller-declared name lists; any sequence of `find_attr` /
`find_uniform` calls leaves the shader unchanged; and for every
registered name, any number of repeated lookups all return the one
handle resolved at construction. -/
theorem shader_lookup_stable :
    ∀ (program : ProgramInfo) (uniforms attributes : List String) (s : Shader),
      Shader.new program uniforms attributes = some s →
      (s.attribute_locations =
        attributes.map (fun a => (a, u32OfInt (getAttribLocation program a)))) ∧
      (s.uniform_locations =
        uniforms.filterMap (fun u =>
          (getUniformLocation program u).map (fun loc => (u, loc)))) ∧
      (∀ reqs : List LookupReq, (s.runLookups reqs).1 = s) ∧
      (∀ name, name ∈ attributes →
        (s.find_attr name = some (u32OfInt (getAttribLocation program name)) ∧
        ∀ n : Nat, (s.runLookups (List.replicate n (LookupReq.attr name))).2 =
          List.replicate n (some (u32OfInt (getAttribLocation program name))))) ∧
      (∀ name, name ∈ uniforms →
        (s.find_uniform name = getUniformLocation program name ∧
        ∀ n : Nat, (s.runLookups (List.replicate n (LookupReq.uniform name))).2 =
          List.replicate n (getUniformLocation program name))) := by
  intro program uniforms attributes s hnew
  unfold Shader.new at hnew
  by_cases hcond : uniforms.all (fun v => (getUniformLocation program v).isSome) = true
  · rw [if_pos hcond] at hnew
    have hs := (Option.some.injEq _ _).mp hnew
    refine ⟨?_, ?_, fun reqs => runLookups_fst _ reqs, ?_, ?_⟩
    · rw [← hs]
    · rw [← hs]
    · intro name hname
      have hfa : s.find_attr name =
          some (u32OfInt (getAttribLocation program name)) := by
        unfold Shader.find_attr
        rw [← hs]
        exact lookup_map_self _ _ _ hname
      refine ⟨hfa, fun n => ?_⟩
      rw [runLookups_replicate_attr, hfa]
    · intro name hname
      have hfu : s.find_uniform name = getUniformLocation program name := by
        unfold Shader.find_uniform
        rw [← hs]
        exact lookup_filterMap_locations _ _ _ (List.all_eq_true.mp hcond) hname
      refine ⟨hfu, fun n => ?_⟩
      rw [runLookups_replicate_uniform, hfu]
  · rw [if_neg hcond] at hnew
    cases hnew

/-- Witness for C9: the spec scenario — uniforms `["projection"]`,
attributes `["pos"]`; 1000 repeated `find_attr("pos")` calls all
return handle 0 and leave the shader unchanged. -/
theorem shader_lookup_stable_witness :
    (Shader.new ⟨[("pos" : String)], [("projection" : String)]⟩
        [("projection" : String)] [("pos" : String)] =
      some ⟨⟨[("pos" : String)], [("projection" : String)]⟩,
        [(("pos" : String), 0)], [(("projection" : String), 0)]⟩) ∧
    ((Shader.runLookups
        ⟨⟨[("pos" : String)], [("projection" : String)]⟩,
          [(("pos" : String), 0)], [(("projection" : String), 0)]⟩
        (List.replicate 1000 (LookupReq.attr ("pos")))).2 =
      List.replicate 1000 (some 0)) ∧
    ((Shader.runLookups
        ⟨⟨[("pos" : String)], [("projection" : String)]⟩,
          [(("pos" : String), 0)], [(("projection" : String), 0)]⟩
        (List.replicate 1000 (LookupReq.attr ("pos")))).1 =
      ⟨⟨[("pos" : String)], [("projection" : String)]⟩,
        [(("pos" : String), 0)], [(("projection" : String), 0)]⟩) := by
  have h := shader_lookup_stable ⟨[("pos" : String)], [("projection" : String)]⟩
    [("projection" : String)] [("pos" : String)]
    ⟨⟨[("pos" : String)], [("projection" : String)]⟩,
      [(("pos" : String), 0)], [(("projection" : String), 0)]⟩ (by decide)
  have h4 := (h.2.2.2.1 ("pos") (by decide)).2 1000
  have hval : u32OfInt (getAttribLocation
      ⟨[("pos" : String)], [("projection" : String)]⟩ ("pos")) = 0 := by decide
  rw [hval] at h4
  exact ⟨by decide, h4, h.2.2.1 _⟩

end Wasmgl
